import Mathlib

/-!
Shallow embedding of the storage-provisioning core of
src/hooks/cinder_utils.py (functions _parse_block_device,
configure_lvm_storage, clean_storage), together with proofs of the
specification claims about them.

Modelling conventions:
* Python strings are modelled as lists of characters (PyStr); concrete
  literals are written as Lean string literals converted with .data.
* The Python value None and strings are merged into Option PyStr: the
  descriptor argument and every parsed path is an Option PyStr, none
  standing for the Python None object.
* The source is Python 2 (it uses iteritems elsewhere in the file), so
  a mixed comparison between a str and an int is well defined: every
  str compares strictly greater than every int.  The parsed size is an
  int or a str, modelled by PSize, and the comparisons size == 0 and
  size > 0 of configure_lvm_storage are modelled by pyEqZero and
  pyGtZero with exactly those Python 2 semantics.
* External collaborators (charmhelpers probes, the loopback
  provisioner, the mount table) are oracles collected in Env; they are
  pure during one invocation, matching the single-threaded
  no-external-change assumption of the spec.
* Side effects are recorded as a trace of Event values, in the order
  the Python code performs the corresponding external calls.  The
  query calls is_device_mounted and is_block_device are recorded too,
  because some claims are about whether a check happens at all.  The
  call clean_storage made from configure_lvm_storage is recorded as a
  single Event.cleanStorage (the call itself); the internal steps of
  clean_storage are modelled by the separate function clean_storage.
-/

/-- A Python string: a list of characters. -/
abbrev PyStr := List Char

/-- Python s.startswith(p) on character lists. -/
def pyStartsWith : PyStr → PyStr → Bool
  | _, [] => true
  | [], _ :: _ => false
  | c :: cs, p :: ps => c == p && pyStartsWith cs ps

/-- Python s.split("|"): split on every occurrence of the bar
character; the empty string yields [""]. -/
def pySplitOnBar : PyStr → List PyStr
  | [] => [[]]
  | c :: rest =>
    let r := pySplitOnBar rest
    if c == '|' then [] :: r
    else
      match r with
      | [] => [[c]]
      | h :: t => (c :: h) :: t

/-- The dynamically typed size value returned by _parse_block_device:
either a Python int or a Python str. -/
inductive PSize where
  | int : Int → PSize
  | str : PyStr → PSize
deriving DecidableEq

/-- Python 2 evaluation of size == 0: an int equals 0 iff it is 0; a
str is never equal to an int. -/
def pyEqZero : PSize → Bool
  | .int n => n == 0
  | .str _ => false

/-- Python 2 evaluation of size > 0: int comparison for ints; every
str compares strictly greater than every int (CPython 2 orders all
numbers below all non-number types). -/
def pyGtZero : PSize → Bool
  | .int n => decide (0 < n)
  | .str _ => true

/-- DEFAULT_LOOPBACK_SIZE = "5G" (cinder_utils.py line 86). -/
def DEFAULT_LOOPBACK_SIZE : PyStr := "5G".data

/-- _parse_block_device (cinder_utils.py lines 347-370).  The _none
list is ["None", "none", None]; a member maps to (None, 0).  A string
starting with "/dev/" maps to (itself, 0); any other string starting
with "/" is split on "|", two parts giving (part0, part1) and any
other number of parts giving (itself, DEFAULT_LOOPBACK_SIZE); any
remaining string s maps to ("/dev/" + s, 0). -/
def _parse_block_device (block_device : Option PyStr) : Option PyStr × PSize :=
  match block_device with
  | none => (none, PSize.int 0)
  | some bd =>
    if bd = "None".data ∨ bd = "none".data then (none, PSize.int 0)
    else if pyStartsWith bd "/dev/".data then (some bd, PSize.int 0)
    else if pyStartsWith bd "/".data then
      match pySplitOnBar bd with
      | [bdev, size] => (some bdev, PSize.str size)
      | _ => (some bd, PSize.str DEFAULT_LOOPBACK_SIZE)
    else (some ("/dev/".data ++ bd), PSize.int 0)

/-- One external call performed by the provisioning code, in trace
order.  qMounted and qBlockDev are the is_device_mounted and
is_block_device queries; the rest are the state-changing calls. -/
inductive Event where
  | qMounted (dev : Option PyStr)
  | qBlockDev (dev : Option PyStr)
  | ensureLoopback (path : Option PyStr) (size : PSize)
  | cleanStorage (dev : Option PyStr)
  | createPV (dev : Option PyStr)
  | createVG (vg : PyStr) (dev : Option PyStr)
  | extendVG (vg : PyStr) (dev : Option PyStr)
  | umount (mp : PyStr) (persist : Bool)
  | deactivateVG (dev : Option PyStr)
  | removePV (dev : Option PyStr)
  | zapDisk (dev : Option PyStr)
deriving DecidableEq

/-- The external collaborators of the core, fixed for one invocation:
probes, the loopback provisioner and the mount table (a list of
(mount point, source device) pairs, as returned by mounts()). -/
structure Env where
  is_device_mounted : Option PyStr → Bool
  is_block_device : Option PyStr → Bool
  ensure_loopback_device : Option PyStr → PSize → PyStr
  is_lvm_physical_volume : Option PyStr → Bool
  list_lvm_volume_group : Option PyStr → PyStr
  mounts : List (PyStr × PyStr)

/-- The body of the first loop of configure_lvm_storage (lines
287-294) for one descriptor: parse it, query is_device_mounted on the
parsed path; if unmounted and size == 0, query is_block_device and
keep the path when it is a block device; if unmounted and size > 0,
call ensure_loopback_device and keep the returned device path.
The accumulator is (candidate devices so far, events so far). -/
def phase1Step (env : Env) (acc : List (Option PyStr) × List Event)
    (bd : Option PyStr) : List (Option PyStr) × List Event :=
  let pr := _parse_block_device bd
  let block_device := pr.1
  let size := pr.2
  let evs := acc.2 ++ [Event.qMounted block_device]
  if env.is_device_mounted block_device then (acc.1, evs)
  else if pyEqZero size then
    if env.is_block_device block_device then
      (acc.1 ++ [block_device], evs ++ [Event.qBlockDev block_device])
    else (acc.1, evs ++ [Event.qBlockDev block_device])
  else if pyGtZero size then
    (acc.1 ++ [some (env.ensure_loopback_device block_device size)],
     evs ++ [Event.ensureLoopback block_device size])
  else (acc.1, evs)

/-- The whole first loop: fold phase1Step over the descriptor list. -/
def phase1 (env : Env) (block_devices : List (Option PyStr)) :
    List (Option PyStr) × List Event :=
  block_devices.foldl (phase1Step env) ([], [])

/-- The candidate device list built by the first loop. -/
def candidateDevices (env : Env) (block_devices : List (Option PyStr)) :
    List (Option PyStr) :=
  (phase1 env block_devices).1

/-- The body of the classification loop of configure_lvm_storage
(lines 300-312) for one candidate device.  The accumulator is
(vg_found, new_devices, events).  The first branch is the literal
condition of line 301-303; it acts only when overwrite is True,
calling clean_storage, appending to new_devices and calling
create_lvm_physical_volume.  The elif of lines 309-310 marks
vg_found. -/
def phase2Step (env : Env) (volume_group : PyStr) (overwrite : Bool)
    (acc : Bool × List (Option PyStr) × List Event)
    (device : Option PyStr) : Bool × List (Option PyStr) × List Event :=
  if (!env.is_lvm_physical_volume device ||
      (env.is_lvm_physical_volume device &&
       !(env.list_lvm_volume_group device == volume_group))) then
    if overwrite then
      (acc.1, acc.2.1 ++ [device],
       acc.2.2 ++ [Event.cleanStorage device, Event.createPV device])
    else acc
  else if (env.is_lvm_physical_volume device &&
           (env.list_lvm_volume_group device == volume_group)) then
    (true, acc.2.1, acc.2.2)
  else acc

/-- The classification loop over the candidate list. -/
def phase2 (env : Env) (volume_group : PyStr) (overwrite : Bool)
    (devices : List (Option PyStr)) : Bool × List (Option PyStr) × List Event :=
  devices.foldl (phase2Step env volume_group overwrite) (false, [], [])

/-- vg_found after the classification loop. -/
def vgFound (env : Env) (block_devices : List (Option PyStr))
    (volume_group : PyStr) (overwrite : Bool) : Bool :=
  (phase2 env volume_group overwrite (candidateDevices env block_devices)).1

/-- new_devices after the classification loop (before the seed is
removed). -/
def newDevices (env : Env) (block_devices : List (Option PyStr))
    (volume_group : PyStr) (overwrite : Bool) : List (Option PyStr) :=
  (phase2 env volume_group overwrite (candidateDevices env block_devices)).2.1

/-- configure_lvm_storage (cinder_utils.py lines 278-322), returning
the trace of external calls.  After the two loops: if vg_found is
False and new_devices is non-empty, create_lvm_volume_group is called
with the first new device, which is then removed (new_devices.remove
of element 0 removes exactly that first position); then every
remaining new device is passed to extend_lvm_volume_group. -/
def configure_lvm_storage (env : Env) (block_devices : List (Option PyStr))
    (volume_group : PyStr) (overwrite : Bool) : List Event :=
  let p1 := phase1 env block_devices
  let devices := p1.1
  let p2 := devices.foldl (phase2Step env volume_group overwrite) (false, [], [])
  let vg_found := p2.1
  let new_devices := p2.2.1
  let p3 : List (Option PyStr) × List Event :=
    match vg_found, new_devices with
    | false, d :: rest => (rest, [Event.createVG volume_group d])
    | _, _ => (new_devices, [])
  let evs4 :=
    if p3.1.length > 0 then p3.1.map (fun d => Event.extendVG volume_group d)
    else []
  p1.2 ++ p2.2.2 ++ p3.2 ++ evs4

/-- clean_storage (cinder_utils.py lines 325-344), returning the trace
of external calls: unmount every mount table entry whose source is the
device (persist=True), then, if the device is an LVM physical volume,
deactivate its volume group and remove the physical volume signature,
and finally zap the disk. -/
def clean_storage (env : Env) (block_device : Option PyStr) : List Event :=
  let evs := env.mounts.foldl
    (fun evs md =>
      if some md.2 = block_device then evs ++ [Event.umount md.1 true]
      else evs) []
  let evs :=
    if env.is_lvm_physical_volume block_device then
      evs ++ [Event.deactivateVG block_device, Event.removePV block_device]
    else evs
  evs ++ [Event.zapDisk block_device]

/-- Case B of the spec: the device is an LVM physical volume already
in the target volume group. -/
def isCaseB (env : Env) (volume_group : PyStr) (device : Option PyStr) : Bool :=
  env.is_lvm_physical_volume device &&
    (env.list_lvm_volume_group device == volume_group)

/-- Case A of the spec: not a physical volume, or one in a
different (or no) volume group. -/
def isCaseA (env : Env) (volume_group : PyStr) (device : Option PyStr) : Bool :=
  !env.is_lvm_physical_volume device ||
    !(env.list_lvm_volume_group device == volume_group)

/-- Event classifiers. -/
def isCreateVGEvent : Event → Bool
  | .createVG _ _ => true
  | _ => false

def isExtendVGEvent : Event → Bool
  | .extendVG _ _ => true
  | _ => false

def isCleanStorageEvent : Event → Bool
  | .cleanStorage _ => true
  | _ => false

def isCreatePVEvent : Event → Bool
  | .createPV _ => true
  | _ => false

/-- A probe or loopback event: a mount query, a block-device query, or
an ensure_loopback_device call — everything the first loop can emit. -/
def isProbeEvent : Event → Bool
  | .qMounted _ => true
  | .qBlockDev _ => true
  | .ensureLoopback _ _ => true
  | _ => false

/-- An LVM-mutating call of configure_lvm_storage: clean_storage,
create_lvm_physical_volume, create_lvm_volume_group or
extend_lvm_volume_group. -/
def isLvmMutationEvent : Event → Bool
  | .cleanStorage _ => true
  | .createPV _ => true
  | .createVG _ _ => true
  | .extendVG _ _ => true
  | _ => false

/-- The devices an event acts on with an LVM-mutating call. -/
def actedDevices : Event → List (Option PyStr)
  | .cleanStorage d => [d]
  | .createPV d => [d]
  | .createVG _ d => [d]
  | .extendVG _ d => [d]
  | _ => []

def isEnsureLoopbackEvent : Event → Bool
  | .ensureLoopback _ _ => true
  | _ => false

/-- A concrete environment for evaluation: nothing is mounted, every
path is a block device, nothing is an LVM physical volume yet, the
loopback provisioner always returns /dev/loop0, the mount table is
empty. -/
def envFresh : Env :=
  { is_device_mounted := fun _ => false
    is_block_device := fun _ => true
    ensure_loopback_device := fun _ _ => "/dev/loop0".data
    is_lvm_physical_volume := fun _ => false
    list_lvm_volume_group := fun _ => []
    mounts := [] }

/-- A concrete environment for evaluation in which every path is
reported mounted. -/
def envAllMounted : Env :=
  { is_device_mounted := fun _ => true
    is_block_device := fun _ => false
    ensure_loopback_device := fun _ _ => "/dev/loop0".data
    is_lvm_physical_volume := fun _ => false
    list_lvm_volume_group := fun _ => []
    mounts := [] }

/-- A concrete environment for evaluation in which every path is an
unmounted block device that is already an LVM physical volume of the
volume group cinder-volumes. -/
def envConverged : Env :=
  { is_device_mounted := fun _ => false
    is_block_device := fun _ => true
    ensure_loopback_device := fun _ _ => "/dev/loop0".data
    is_lvm_physical_volume := fun _ => true
    list_lvm_volume_group := fun _ => "cinder-volumes".data
    mounts := [] }

/-! ### Characterization lemmas for the folds -/

/-- Case A is the complement of Case B. -/
lemma isCaseA_eq_not_isCaseB (env : Env) (vg : PyStr) (d : Option PyStr) :
    isCaseA env vg d = !isCaseB env vg d := by
  unfold isCaseA isCaseB
  cases env.is_lvm_physical_volume d <;>
    cases env.list_lvm_volume_group d == vg <;> rfl

/-- The literal Python condition of lines 301-303 equals Case A, and
the elif condition of lines 309-310 equals Case B; hence one step of
the classification loop has this normal form. -/
lemma phase2Step_eq (env : Env) (vg : PyStr) (ow : Bool)
    (acc : Bool × List (Option PyStr) × List Event) (d : Option PyStr) :
    phase2Step env vg ow acc d =
      if isCaseB env vg d then (true, acc.2.1, acc.2.2)
      else if ow then
        (acc.1, acc.2.1 ++ [d],
         acc.2.2 ++ [Event.cleanStorage d, Event.createPV d])
      else acc := by
  unfold phase2Step isCaseB
  cases hp : env.is_lvm_physical_volume d <;>
    cases hv : env.list_lvm_volume_group d == vg <;>
      simp [hp, hv]

/-- The events one classification step emits, appended to the
accumulator. -/
lemma phase2Step_caseB (env : Env) (vg : PyStr) (ow : Bool)
    (acc : Bool × List (Option PyStr) × List Event) (d : Option PyStr)
    (h : isCaseB env vg d = true) :
    phase2Step env vg ow acc d = (true, acc.2.1, acc.2.2) := by
  rw [phase2Step_eq, h]; rfl

/-- Closed form of the classification fold from an arbitrary
accumulator: vg_found becomes true iff some device is Case B,
new_devices collects exactly the Case A devices when overwrite is on
(and nothing otherwise), and the emitted events are a clean_storage
and a create_lvm_physical_volume per collected device, in order. -/
lemma phase2_foldl (env : Env) (vg : PyStr) (ow : Bool)
    (devices : List (Option PyStr))
    (f0 : Bool) (nd0 : List (Option PyStr)) (evs0 : List Event) :
    devices.foldl (phase2Step env vg ow) (f0, nd0, evs0) =
      (f0 || devices.any (isCaseB env vg),
       nd0 ++ (if ow then devices.filter (isCaseA env vg) else []),
       evs0 ++ (if ow then
         (devices.filter (isCaseA env vg)).flatMap
           (fun d => [Event.cleanStorage d, Event.createPV d])
         else [])) := by
  induction devices generalizing f0 nd0 evs0 with
  | nil => simp
  | cons d rest ih =>
    simp only [List.foldl_cons, List.any_cons, List.filter_cons]
    rw [phase2Step_eq, isCaseA_eq_not_isCaseB]
    cases hb : isCaseB env vg d <;> cases ow <;>
      simp [ih, List.append_assoc]

/-- One step of the first loop appends only probe and loopback
events, so the all-probes property of the event accumulator is
preserved. -/
lemma phase1Step_all_probe (env : Env) (acc : List (Option PyStr) × List Event)
    (bd : Option PyStr) :
    (phase1Step env acc bd).2.all isProbeEvent = acc.2.all isProbeEvent := by
  unfold phase1Step
  cases h1 : env.is_device_mounted (_parse_block_device bd).1 <;>
    cases h2 : pyEqZero (_parse_block_device bd).2 <;>
      cases h3 : pyGtZero (_parse_block_device bd).2 <;>
        cases h4 : env.is_block_device (_parse_block_device bd).1 <;>
          simp [h1, h2, h3, h4, isProbeEvent]

/-- The first loop emits only probe and loopback events whatever the
starting accumulator whose events are all probes. -/
lemma phase1_foldl_all_probe (env : Env) (bds : List (Option PyStr))
    (acc : List (Option PyStr) × List Event) :
    ((bds.foldl (phase1Step env) acc).2).all isProbeEvent
      = acc.2.all isProbeEvent := by
  induction bds generalizing acc with
  | nil => rfl
  | cons b rest ih =>
    simp only [List.foldl_cons]
    rw [ih, phase1Step_all_probe]

/-- All events of the first loop are probe or loopback events. -/
lemma phase1_all_probe (env : Env) (bds : List (Option PyStr)) :
    (phase1 env bds).2.all isProbeEvent = true := by
  unfold phase1
  rw [phase1_foldl_all_probe]
  rfl

/-- A probe event is not one of the four LVM-mutating calls. -/
lemma probe_not_mutation (e : Event) (h : isProbeEvent e = true) :
    isLvmMutationEvent e = false := by
  cases e <;> simp_all [isProbeEvent, isLvmMutationEvent]

/-- Dropping the guard on the final extension loop: mapping over the
possibly-empty remainder is the same with or without the length
check. -/
lemma ite_length_map {α β : Type} (l : List α) (f : α → β) :
    (if l.length > 0 then l.map f else []) = l.map f := by
  cases l <;> simp

/-- The full trace of configure_lvm_storage, decomposed: the probe
events of the first loop, then a clean_storage and
create_lvm_physical_volume pair per Case A candidate when overwrite
is set, then the optional create_lvm_volume_group on the first new
device when the group was not found, then one
extend_lvm_volume_group per remaining new device. -/
lemma configure_lvm_storage_eq (env : Env) (bds : List (Option PyStr))
    (vg : PyStr) (ow : Bool) :
    configure_lvm_storage env bds vg ow =
      (phase1 env bds).2 ++
      (if ow then
        ((candidateDevices env bds).filter (isCaseA env vg)).flatMap
          (fun d => [Event.cleanStorage d, Event.createPV d])
       else []) ++
      (match vgFound env bds vg ow, newDevices env bds vg ow with
       | false, d :: _ => [Event.createVG vg d]
       | _, _ => []) ++
      (match vgFound env bds vg ow, newDevices env bds vg ow with
       | false, _ :: rest => rest
       | _, nd => nd).map (Event.extendVG vg) := by
  have h2 := phase2_foldl env vg ow ((phase1 env bds).1) false [] []
  simp only [configure_lvm_storage, vgFound, newDevices, phase2,
    candidateDevices, h2, Bool.false_or, List.nil_append]
  cases hf : ((phase1 env bds).1).any (isCaseB env vg) <;>
    cases hnd : (if ow then ((phase1 env bds).1).filter (isCaseA env vg)
                 else []) <;>
      simp [ite_length_map]

/-- vg_found is exactly: some candidate device is Case B. -/
lemma vgFound_eq (env : Env) (bds : List (Option PyStr)) (vg : PyStr)
    (ow : Bool) :
    vgFound env bds vg ow = (candidateDevices env bds).any (isCaseB env vg) := by
  simp only [vgFound, phase2, candidateDevices, phase2_foldl, Bool.false_or]

/-- new_devices is exactly: the Case A candidates when overwrite is
set, and empty otherwise. -/
lemma newDevices_eq (env : Env) (bds : List (Option PyStr)) (vg : PyStr)
    (ow : Bool) :
    newDevices env bds vg ow =
      if ow then (candidateDevices env bds).filter (isCaseA env vg) else [] := by
  simp only [newDevices, phase2, candidateDevices, phase2_foldl,
    List.nil_append]

/-- A probe event is not a clean_storage call and not a
create_lvm_physical_volume call. -/
lemma probe_not_clean_not_createPV (e : Event) (h : isProbeEvent e = true) :
    isCleanStorageEvent e = false ∧ isCreatePVEvent e = false := by
  cases e <;> simp_all [isProbeEvent, isCleanStorageEvent, isCreatePVEvent]

/-- A list of probe events contains none of the four LVM-mutating
calls. -/
lemma all_not_mutation_of_all_probe (l : List Event)
    (h : l.all isProbeEvent = true) :
    l.all (fun e => !isLvmMutationEvent e) = true := by
  rw [List.all_eq_true] at h ⊢
  intro e he
  simp [probe_not_mutation e (h e he)]

/-- With overwrite=False the whole trace of configure_lvm_storage is
just the first-loop trace: no classification branch acts, new_devices
stays empty, and neither the create nor the extend step fires. -/
lemma configure_false_eq_phase1 (env : Env) (bds : List (Option PyStr))
    (vg : PyStr) :
    configure_lvm_storage env bds vg false = (phase1 env bds).2 := by
  rw [configure_lvm_storage_eq, newDevices_eq]
  cases hvg : vgFound env bds vg false <;> simp

/-! ### Claim theorems -/

/-- C1: configure_lvm_storage is idempotent: whenever every candidate
device is already an LVM physical volume of the target volume group
(the converged state, Case B), the run performs zero clean_storage,
create_lvm_physical_volume, create_lvm_volume_group and
extend_lvm_volume_group calls, for any overwrite flag. -/
theorem configure_lvm_storage_idempotent_converged (env : Env)
    (bds : List (Option PyStr)) (vg : PyStr) (ow : Bool)
    (h : (candidateDevices env bds).all (isCaseB env vg) = true) :
    (configure_lvm_storage env bds vg ow).all
      (fun e => !isLvmMutationEvent e) = true := by
  have hfilter : (candidateDevices env bds).filter (isCaseA env vg) = [] := by
    rw [List.filter_eq_nil_iff]
    intro a ha
    have hb := (List.all_eq_true.mp h) a ha
    rw [isCaseA_eq_not_isCaseB, hb]
    simp
  have hnd : newDevices env bds vg ow = [] := by
    rw [newDevices_eq, hfilter]
    cases ow <;> rfl
  rw [configure_lvm_storage_eq, hfilter, hnd]
  cases hvg : vgFound env bds vg ow <;>
    simp [all_not_mutation_of_all_probe _ (phase1_all_probe env bds)]

/-- Witness for C1: with one /dev/sdb descriptor in the converged
environment, the hypothesis holds and the run performs no LVM
mutation. -/
theorem configure_lvm_storage_idempotent_converged_witness :
    ((candidateDevices envConverged [some "/dev/sdb".data]).all
        (isCaseB envConverged "cinder-volumes".data) = true) ∧
    ((configure_lvm_storage envConverged [some "/dev/sdb".data]
        "cinder-volumes".data true).all
      (fun e => !isLvmMutationEvent e) = true) :=
  ⟨by decide,
   configure_lvm_storage_idempotent_converged envConverged
     [some "/dev/sdb".data] "cinder-volumes".data true (by decide)⟩

/-- C3: with overwrite=false no device ever reaches the Case A
actions: nothing is passed to clean_storage, nothing is made a
physical volume, and the new-devices list stays empty, whatever the
environment and inputs (silent skip, no error). -/
theorem caseA_without_overwrite_silent_noop (env : Env)
    (bds : List (Option PyStr)) (vg : PyStr) :
    newDevices env bds vg false = [] ∧
    (configure_lvm_storage env bds vg false).all
      (fun e => !isCleanStorageEvent e && !isCreatePVEvent e) = true := by
  constructor
  · rw [newDevices_eq]; rfl
  · rw [configure_false_eq_phase1]
    have hp := phase1_all_probe env bds
    rw [List.all_eq_true] at hp ⊢
    intro e he
    have := probe_not_clean_not_createPV e (hp e he)
    simp [this.1, this.2]

/-- C10: with overwrite=false the trace of configure_lvm_storage
consists only of is_device_mounted queries, is_block_device queries
and ensure_loopback_device calls — in particular zero clean_storage,
create_lvm_physical_volume, create_lvm_volume_group and
extend_lvm_volume_group calls, for every environment, descriptor
list and volume group. -/
theorem configure_lvm_storage_overwrite_false_frame (env : Env)
    (bds : List (Option PyStr)) (vg : PyStr) :
    (configure_lvm_storage env bds vg false).all isProbeEvent = true := by
  rw [configure_false_eq_phase1]
  exact phase1_all_probe env bds

/-- Probe events filter to nothing under the create-VG classifier. -/
lemma probe_filter_createVG (l : List Event) (h : l.all isProbeEvent = true) :
    l.filter isCreateVGEvent = [] := by
  rw [List.filter_eq_nil_iff]
  intro e he
  have hp := List.all_eq_true.mp h e he
  cases e <;> simp_all [isProbeEvent, isCreateVGEvent]

/-- Probe events filter to nothing under the extend-VG classifier. -/
lemma probe_filter_extendVG (l : List Event) (h : l.all isProbeEvent = true) :
    l.filter isExtendVGEvent = [] := by
  rw [List.filter_eq_nil_iff]
  intro e he
  have hp := List.all_eq_true.mp h e he
  cases e <;> simp_all [isProbeEvent, isExtendVGEvent]

/-- The clean/create pairs of the classification loop contain no
create-VG call. -/
lemma flatMap_clean_filter_createVG (l : List (Option PyStr)) :
    (l.flatMap fun d => [Event.cleanStorage d, Event.createPV d]).filter
      isCreateVGEvent = [] := by
  rw [List.filter_eq_nil_iff]
  intro e he
  rw [List.mem_flatMap] at he
  obtain ⟨d, _, hd⟩ := he
  simp only [List.mem_cons, List.not_mem_nil, or_false] at hd
  rcases hd with h | h <;> subst h <;> simp [isCreateVGEvent]

/-- The clean/create pairs of the classification loop contain no
extend-VG call. -/
lemma flatMap_clean_filter_extendVG (l : List (Option PyStr)) :
    (l.flatMap fun d => [Event.cleanStorage d, Event.createPV d]).filter
      isExtendVGEvent = [] := by
  rw [List.filter_eq_nil_iff]
  intro e he
  rw [List.mem_flatMap] at he
  obtain ⟨d, _, hd⟩ := he
  simp only [List.mem_cons, List.not_mem_nil, or_false] at hd
  rcases hd with h | h <;> subst h <;> simp [isExtendVGEvent]

/-- The extension events filter to themselves under the extend-VG
classifier. -/
lemma map_extend_filter_extendVG (vg : PyStr) (l : List (Option PyStr)) :
    (l.map (Event.extendVG vg)).filter isExtendVGEvent
      = l.map (Event.extendVG vg) := by
  induction l <;> simp_all [isExtendVGEvent]

/-- The extension events contain no create-VG call. -/
lemma map_extend_filter_createVG (vg : PyStr) (l : List (Option PyStr)) :
    (l.map (Event.extendVG vg)).filter isCreateVGEvent = [] := by
  induction l <;> simp_all [isCreateVGEvent]

/-- C2 counterexample: the claim says the seed device is never passed
to extend_lvm_volume_group, but when the same fresh device appears
twice in the descriptor list it is collected twice in new_devices,
seeds create_lvm_volume_group, and is then extended as well. -/
theorem seed_device_reextended_on_duplicates :
    Event.createVG "cinder-volumes".data (some "/dev/sdb".data) ∈
      configure_lvm_storage envFresh
        [some "/dev/sdb".data, some "/dev/sdb".data]
        "cinder-volumes".data true ∧
    Event.extendVG "cinder-volumes".data (some "/dev/sdb".data) ∈
      configure_lvm_storage envFresh
        [some "/dev/sdb".data, some "/dev/sdb".data]
        "cinder-volumes".data true := by
  constructor <;> decide

/-- C2 as amended: in every invocation create_lvm_volume_group is
called at most once; it is called exactly when no candidate device is
Case B and new_devices is non-empty, with the first new-devices entry
as seed; that first list entry is removed and each remaining
new-devices entry is passed to extend_lvm_volume_group in discovery
order — so the seed list entry is not extended, though the same device
path is extended when it occurs again later in new_devices. -/
theorem createVG_once_seed_and_extensions (env : Env)
    (bds : List (Option PyStr)) (vg : PyStr) (ow : Bool) :
    ((configure_lvm_storage env bds vg ow).filter isCreateVGEvent).length ≤ 1 ∧
    vgFound env bds vg ow = (candidateDevices env bds).any (isCaseB env vg) ∧
    (configure_lvm_storage env bds vg ow).filter isCreateVGEvent =
      (match vgFound env bds vg ow, newDevices env bds vg ow with
       | false, d :: _ => [Event.createVG vg d]
       | _, _ => []) ∧
    (configure_lvm_storage env bds vg ow).filter isExtendVGEvent =
      (match vgFound env bds vg ow, newDevices env bds vg ow with
       | false, _ :: rest => rest
       | _, nd => nd).map (Event.extendVG vg) := by
  have h3 : (configure_lvm_storage env bds vg ow).filter isCreateVGEvent =
      (match vgFound env bds vg ow, newDevices env bds vg ow with
       | false, d :: _ => [Event.createVG vg d]
       | _, _ => []) := by
    rw [configure_lvm_storage_eq]
    simp only [List.filter_append]
    rw [probe_filter_createVG _ (phase1_all_probe env bds),
      map_extend_filter_createVG]
    cases hvg : vgFound env bds vg ow <;>
      cases hnd : newDevices env bds vg ow <;>
        cases ow <;>
          simp [flatMap_clean_filter_createVG, isCreateVGEvent]
  have h4 : (configure_lvm_storage env bds vg ow).filter isExtendVGEvent =
      (match vgFound env bds vg ow, newDevices env bds vg ow with
       | false, _ :: rest => rest
       | _, nd => nd).map (Event.extendVG vg) := by
    rw [configure_lvm_storage_eq]
    simp only [List.filter_append]
    rw [probe_filter_extendVG _ (phase1_all_probe env bds),
      map_extend_filter_extendVG]
    cases hvg : vgFound env bds vg ow <;>
      cases hnd : newDevices env bds vg ow <;>
        cases ow <;>
          simp [flatMap_clean_filter_extendVG, isExtendVGEvent]
  refine ⟨?_, vgFound_eq env bds vg ow, h3, h4⟩
  rw [h3]
  cases hvg : vgFound env bds vg ow <;>
    cases hnd : newDevices env bds vg ow <;> simp

/-- A parse result with null path is always the inert result
(None, 0): only the _none branch of _parse_block_device produces a
null path. -/
lemma parse_none_eq (bd : Option PyStr)
    (h : (_parse_block_device bd).1 = none) :
    _parse_block_device bd = (none, PSize.int 0) := by
  cases bd with
  | none => rfl
  | some s =>
    unfold _parse_block_device at h ⊢
    by_cases h1 : s = "None".data ∨ s = "none".data
    · simp [h1]
    · simp only [if_neg h1] at h ⊢
      by_cases h2 : pyStartsWith s "/dev/".data = true
      · simp [h2] at h
      · simp only [Bool.not_eq_true] at h2
        simp only [h2] at h ⊢
        by_cases h3 : pyStartsWith s "/".data = true
        · simp only [h3] at h ⊢
          rcases hsp : pySplitOnBar s with _ | ⟨a, _ | ⟨b, _ | ⟨c, l⟩⟩⟩ <;>
            rw [hsp] at h <;> simp at h
        · simp only [Bool.not_eq_true] at h3
          simp only [h3] at h
          simp at h

/-- C4 counterexample: the claim says a descriptor that parses to a
null path is skipped before any mount check, but the run on the
descriptor "None" performs exactly the is_device_mounted query on the
null path (here the environment reports everything mounted, so the
trace is that single query). -/
theorem null_path_descriptor_mount_checked :
    configure_lvm_storage envAllMounted [some "None".data]
      "cinder-volumes".data false = [Event.qMounted none] := by decide

/-- C4 as amended: a descriptor parsing to a null path is not
specially skipped; it flows through the first loop like any other
path with size 0: is_device_mounted is queried on the null path, and
if the environment reports it unmounted, is_block_device is queried
too, the null path joining the candidate list exactly when that query
answers true; ensure_loopback_device is never called for it. -/
theorem null_path_descriptor_processing (env : Env)
    (acc : List (Option PyStr) × List Event) (bd : Option PyStr)
    (h : (_parse_block_device bd).1 = none) :
    phase1Step env acc bd =
      if env.is_device_mounted none then
        (acc.1, acc.2 ++ [Event.qMounted none])
      else if env.is_block_device none then
        (acc.1 ++ [none], acc.2 ++ [Event.qMounted none, Event.qBlockDev none])
      else
        (acc.1, acc.2 ++ [Event.qMounted none, Event.qBlockDev none]) := by
  unfold phase1Step
  rw [parse_none_eq bd h]
  cases hm : env.is_device_mounted none <;>
    cases hb : env.is_block_device none <;>
      simp [hm, hb, pyEqZero]

/-- Witness for C4 as amended: the descriptor "None" parses to a null
path, and in the fresh environment (unmounted, everything a block
device) its first-loop step queries the mount table and the
block-device probe on the null path and adds the null path to the
candidates. -/
theorem null_path_descriptor_processing_witness :
    (_parse_block_device (some "None".data)).1 = none ∧
    phase1Step envFresh ([], []) (some "None".data) =
      ([none], [Event.qMounted none, Event.qBlockDev none]) :=
  ⟨by decide,
   (null_path_descriptor_processing envFresh ([], []) (some "None".data)
      (by decide)).trans (by decide)⟩

/-- Every new device is a candidate device. -/
lemma newDevices_subset_candidates (env : Env) (bds : List (Option PyStr))
    (vg : PyStr) (ow : Bool) :
    ∀ x ∈ newDevices env bds vg ow, x ∈ candidateDevices env bds := by
  rw [newDevices_eq]
  cases ow with
  | false => intro x hx; simp at hx
  | true => intro x hx; exact List.mem_of_mem_filter hx

/-- Every device an LVM-mutating call of configure_lvm_storage acts
on is a member of the candidate device list built by the first
loop. -/
lemma acted_subset_candidates (env : Env) (bds : List (Option PyStr))
    (vg : PyStr) (ow : Bool) :
    ∀ d ∈ (configure_lvm_storage env bds vg ow).flatMap actedDevices,
      d ∈ candidateDevices env bds := by
  intro d hd
  rw [List.mem_flatMap] at hd
  obtain ⟨e, he, hde⟩ := hd
  rw [configure_lvm_storage_eq] at he
  simp only [List.mem_append] at he
  rcases he with ((he | he) | he) | he
  · have hp := List.all_eq_true.mp (phase1_all_probe env bds) e he
    cases e <;> simp_all [isProbeEvent, actedDevices]
  · cases ow with
    | false => simp at he
    | true =>
      simp only [if_true] at he
      rw [List.mem_flatMap] at he
      obtain ⟨x, hx, hex⟩ := he
      simp only [List.mem_cons, List.not_mem_nil, or_false] at hex
      have hxc : d = x := by
        rcases hex with h | h <;> subst h <;> simp_all [actedDevices]
      rw [hxc]
      exact List.mem_of_mem_filter hx
  · revert he
    cases hvg : vgFound env bds vg ow with
    | true =>
      cases hnd : newDevices env bds vg ow <;> intro he <;> simp at he
    | false =>
      cases hnd : newDevices env bds vg ow with
      | nil => intro he; simp at he
      | cons x rest =>
        intro he
        simp only [List.mem_cons, List.not_mem_nil, or_false] at he
        subst he
        simp only [actedDevices, List.mem_cons, List.not_mem_nil,
          or_false] at hde
        rw [hde]
        exact newDevices_subset_candidates env bds vg ow x
          (by rw [hnd]; exact List.mem_cons_self x rest)
  · revert he
    cases hvg : vgFound env bds vg ow with
    | true =>
      cases hnd : newDevices env bds vg ow with
      | nil => intro he; simp at he
      | cons x rest =>
        intro he
        rw [List.mem_map] at he
        obtain ⟨y, hy, hey⟩ := he
        subst hey
        simp only [actedDevices, List.mem_cons, List.not_mem_nil,
          or_false] at hde
        rw [hde]
        exact newDevices_subset_candidates env bds vg ow y (by rw [hnd]; exact hy)
    | false =>
      cases hnd : newDevices env bds vg ow with
      | nil => intro he; simp at he
      | cons x rest =>
        intro he
        rw [List.mem_map] at he
        obtain ⟨y, hy, hey⟩ := he
        subst hey
        simp only [actedDevices, List.mem_cons, List.not_mem_nil,
          or_false] at hde
        rw [hde]
        exact newDevices_subset_candidates env bds vg ow y
          (by rw [hnd]; exact List.mem_cons_of_mem x hy)

/-- C5: a descriptor whose parsed path the environment reports
mounted contributes nothing, for any overwrite flag: its first-loop
step leaves the candidate list unchanged and emits only the
is_device_mounted query (no block-device check, no
ensure_loopback_device call); and every LVM action of a whole run
acts only on members of the candidate list, so no action ever touches
a path excluded this way. -/
theorem mounted_descriptor_fully_excluded (env : Env)
    (acc : List (Option PyStr) × List Event) (bd : Option PyStr)
    (bds : List (Option PyStr)) (vg : PyStr) (ow : Bool)
    (h : env.is_device_mounted (_parse_block_device bd).1 = true) :
    phase1Step env acc bd =
      (acc.1, acc.2 ++ [Event.qMounted (_parse_block_device bd).1]) ∧
    ((configure_lvm_storage env bds vg ow).flatMap actedDevices).all
      (fun d => (candidateDevices env bds).contains d) = true := by
  constructor
  · unfold phase1Step
    simp [h]
  · rw [List.all_eq_true]
    intro d hd
    have hm := acted_subset_candidates env bds vg ow d hd
    exact List.elem_iff.mpr hm

/-- Witness for C5: in the all-mounted environment the /dev/sdb
descriptor contributes only its mount query, and the containment of
acted devices in the candidate list holds for a concrete run. -/
theorem mounted_descriptor_fully_excluded_witness :
    envAllMounted.is_device_mounted
      (_parse_block_device (some "/dev/sdb".data)).1 = true ∧
    phase1Step envAllMounted ([], []) (some "/dev/sdb".data) =
      ([], [Event.qMounted (some "/dev/sdb".data)]) ∧
    ((configure_lvm_storage envAllMounted [some "/dev/sdb".data]
        "cinder-volumes".data true).flatMap actedDevices).all
      (fun d =>
        (candidateDevices envAllMounted [some "/dev/sdb".data]).contains d)
      = true :=
  ⟨by decide,
   (mounted_descriptor_fully_excluded envAllMounted ([], [])
      (some "/dev/sdb".data) [some "/dev/sdb".data]
      "cinder-volumes".data true (by decide)).1.trans (by decide),
   (mounted_descriptor_fully_excluded envAllMounted ([], [])
      (some "/dev/sdb".data) [some "/dev/sdb".data]
      "cinder-volumes".data true (by decide)).2⟩

/-- The parsed size is the int 0 or a str: _parse_block_device never
returns a non-zero int size. -/
lemma parse_size_cases (bd : Option PyStr) :
    (_parse_block_device bd).2 = PSize.int 0 ∨
      ∃ s, (_parse_block_device bd).2 = PSize.str s := by
  cases bd with
  | none => left; rfl
  | some s =>
    unfold _parse_block_device
    by_cases h1 : s = "None".data ∨ s = "none".data
    · simp [h1]
    · simp only [if_neg h1]
      by_cases h2 : pyStartsWith s "/dev/".data = true
      · simp [h2]
      · simp only [Bool.not_eq_true] at h2
        simp only [h2]
        by_cases h3 : pyStartsWith s "/".data = true
        · simp only [h3]
          cases hsp : pySplitOnBar s with
          | nil => simp
          | cons a t =>
            cases t with
            | nil => simp
            | cons b u =>
              cases u with
              | nil => simp
              | cons c v => simp
        · simp only [Bool.not_eq_true] at h3
          simp [h3]

/-- C6 counterexample: the claim says a parsed size that is the
string "0" is treated as an existing block device and never passed to
ensure_loopback_device, but the descriptor "/var/x.img|0" parses to
size "0" (a str), the Python 2 comparison "0" > 0 is true, and the
run calls ensure_loopback_device("/var/x.img", "0"). -/
theorem str_zero_size_calls_ensure_loopback :
    Event.ensureLoopback (some "/var/x.img".data) (PSize.str "0".data) ∈
      configure_lvm_storage envFresh [some "/var/x.img|0".data]
        "cinder-volumes".data false := by decide

/-- C6 as amended: only the int 0 size (produced for /dev/ paths,
bare names and inert inputs) marks an already-existing block device;
a parsed size that is a str — including "0" — compares greater than 0
under Python 2, so a first-loop step calls ensure_loopback_device
exactly when the parsed path is unmounted and the parsed size is a
str; when the parsed size is the int 0 and the path is unmounted, the
path is instead kept as a candidate iff it is a block device. -/
theorem ensure_loopback_iff_str_size (env : Env)
    (acc : List (Option PyStr) × List Event) (bd : Option PyStr) :
    (phase1Step env acc bd).2.filter isEnsureLoopbackEvent =
      acc.2.filter isEnsureLoopbackEvent ++
      (match _parse_block_device bd with
       | (p, PSize.str s) =>
         if env.is_device_mounted p then []
         else [Event.ensureLoopback p (PSize.str s)]
       | (_, PSize.int _) => []) ∧
    ((_parse_block_device bd).2 = PSize.int 0 →
      env.is_device_mounted (_parse_block_device bd).1 = false →
      (phase1Step env acc bd).1 =
        acc.1 ++ (if env.is_block_device (_parse_block_device bd).1 then
          [(_parse_block_device bd).1] else [])) := by
  constructor
  · have hs := parse_size_cases bd
    rcases hp : _parse_block_device bd with ⟨p, s⟩
    rw [hp] at hs
    simp only [phase1Step, hp]
    rcases hs with hs | ⟨t, hs⟩ <;> simp only at hs <;> subst hs
    · cases hm : env.is_device_mounted p <;>
        cases hb : env.is_block_device p <;>
          simp [pyEqZero, isEnsureLoopbackEvent, List.filter_append]
    · cases hm : env.is_device_mounted p <;>
        simp [pyEqZero, pyGtZero, isEnsureLoopbackEvent, List.filter_append,
          hm]
  · intro h0 hm
    simp only [phase1Step, hm, h0]
    cases hb : env.is_block_device (_parse_block_device bd).1 <;>
      simp [pyEqZero, hb, hm]

/-- Witness for C6 as amended: a loopback descriptor with an explicit
size yields exactly one ensure_loopback_device call, and the /dev/sdb
descriptor (size int 0) is kept as a candidate block device with no
loopback call. -/
theorem ensure_loopback_iff_str_size_witness :
    (phase1Step envFresh ([], []) (some "/var/x.img|10G".data)).2.filter
        isEnsureLoopbackEvent =
      [Event.ensureLoopback (some "/var/x.img".data)
        (PSize.str "10G".data)] ∧
    (_parse_block_device (some "/dev/sdb".data)).2 = PSize.int 0 ∧
    envFresh.is_device_mounted
      (_parse_block_device (some "/dev/sdb".data)).1 = false ∧
    (phase1Step envFresh ([], []) (some "/dev/sdb".data)).1 =
      [some "/dev/sdb".data] :=
  ⟨(ensure_loopback_iff_str_size envFresh ([], [])
      (some "/var/x.img|10G".data)).1.trans (by decide),
   by decide, by decide,
   ((ensure_loopback_iff_str_size envFresh ([], [])
      (some "/dev/sdb".data)).2 (by decide) (by decide)).trans (by decide)⟩

/-- C7 counterexample: the claim says the empty string is inert and
parses to (None, 0), but the empty string is not in the _none list of
_parse_block_device; it falls through to the bare-name rule and
parses to ("/dev/", 0). -/
theorem empty_string_not_inert :
    _parse_block_device (some "".data) ≠ (none, PSize.int 0) := by decide

/-- C7 as amended: the null sentinel None and the strings "None" and
"none" parse to (None, 0), but the empty string parses to
("/dev/", 0) through the bare-name rule. -/
theorem parse_inert_inputs :
    _parse_block_device none = (none, PSize.int 0) ∧
    _parse_block_device (some "None".data) = (none, PSize.int 0) ∧
    _parse_block_device (some "none".data) = (none, PSize.int 0) ∧
    _parse_block_device (some "".data) = (some "/dev/".data, PSize.int 0) := by
  refine ⟨rfl, by decide, by decide, by decide⟩

/-- C8: for every non-inert input string (not "None" and not "none")
the parser follows the ordered rules: a string starting with "/dev/"
maps to (itself, 0); any other string starting with "/" is split on
the bar — exactly two parts give (part0, part1) and any other number
of parts gives (itself, DEFAULT_LOOPBACK_SIZE); a string with no
leading "/" maps to ("/dev/" + itself, 0).  The parser is a total
function, so no input raises an error. -/
theorem parse_noninert_rules (s : PyStr) (h1 : s ≠ "None".data)
    (h2 : s ≠ "none".data) :
    (pyStartsWith s "/dev/".data = true →
      _parse_block_device (some s) = (some s, PSize.int 0)) ∧
    (pyStartsWith s "/dev/".data = false →
      pyStartsWith s "/".data = true →
      (pySplitOnBar s).length = 2 →
      _parse_block_device (some s) =
        (some ((pySplitOnBar s).getD 0 []),
         PSize.str ((pySplitOnBar s).getD 1 []))) ∧
    (pyStartsWith s "/dev/".data = false →
      pyStartsWith s "/".data = true →
      (pySplitOnBar s).length ≠ 2 →
      _parse_block_device (some s) = (some s, PSize.str DEFAULT_LOOPBACK_SIZE)) ∧
    (pyStartsWith s "/dev/".data = false →
      pyStartsWith s "/".data = false →
      _parse_block_device (some s) = (some ("/dev/".data ++ s), PSize.int 0)) := by
  have hno : ¬(s = "None".data ∨ s = "none".data) := by
    intro h
    rcases h with h | h
    · exact h1 h
    · exact h2 h
  refine ⟨?_, ?_, ?_, ?_⟩
  · intro hd
    unfold _parse_block_device
    simp [hno, hd]
  · intro hd hs hlen
    unfold _parse_block_device
    simp only [if_neg hno, hd, hs, if_true]
    cases hsp : pySplitOnBar s with
    | nil => rw [hsp] at hlen; simp at hlen
    | cons a t =>
      cases t with
      | nil => rw [hsp] at hlen; simp at hlen
      | cons b u =>
        cases u with
        | nil => simp [hsp]
        | cons c v => rw [hsp] at hlen; simp at hlen
  · intro hd hs hlen
    unfold _parse_block_device
    simp only [if_neg hno, hd, hs, if_true]
    cases hsp : pySplitOnBar s with
    | nil => simp
    | cons a t =>
      cases t with
      | nil => simp
      | cons b u =>
        cases u with
        | nil => rw [hsp] at hlen; simp at hlen
        | cons c v => simp
  · intro hd hs
    unfold _parse_block_device
    simp [hno, hd, hs]

/-- Witness for C8: the parser evaluated on one concrete input of
each rule. -/
theorem parse_noninert_rules_witness :
    _parse_block_device (some "/dev/sdb".data) =
      (some "/dev/sdb".data, PSize.int 0) ∧
    _parse_block_device (some "/var/x.img|10G".data) =
      (some "/var/x.img".data, PSize.str "10G".data) ∧
    _parse_block_device (some "/a|b|c".data) =
      (some "/a|b|c".data, PSize.str DEFAULT_LOOPBACK_SIZE) ∧
    _parse_block_device (some "sdb".data) =
      (some "/dev/sdb".data, PSize.int 0) :=
  ⟨(parse_noninert_rules "/dev/sdb".data (by decide) (by decide)).1
      (by decide),
   ((parse_noninert_rules "/var/x.img|10G".data (by decide) (by decide)).2.1
      (by decide) (by decide) (by decide)).trans (by decide),
   (parse_noninert_rules "/a|b|c".data (by decide) (by decide)).2.2.1
      (by decide) (by decide) (by decide),
   (parse_noninert_rules "sdb".data (by decide) (by decide)).2.2.2
      (by decide) (by decide)⟩

/-- The unmount loop of clean_storage in closed form: one persistent
umount per mount-table entry whose source equals the device, in table
order. -/
lemma umount_foldl (l : List (PyStr × PyStr)) (d : Option PyStr)
    (acc : List Event) :
    l.foldl
      (fun evs md =>
        if some md.2 = d then evs ++ [Event.umount md.1 true] else evs) acc =
      acc ++ (l.filter fun md => some md.2 == d).map
        (fun md => Event.umount md.1 true) := by
  induction l generalizing acc with
  | nil => simp
  | cons md rest ih =>
    simp only [List.foldl_cons, List.filter_cons]
    by_cases h : some md.2 = d
    · simp [h, ih]
    · have hb : (some md.2 == d) = false := by
        simp [h]
      simp [h, hb, ih]

/-- C9: clean_storage performs its steps in order: first a persistent
unmount for every mount-table entry whose source equals the device,
second — exactly when the device is an LVM physical volume — a
volume-group deactivation followed by the physical-volume signature
removal, and last, always, the disk zap. -/
theorem clean_storage_step_order (env : Env) (d : Option PyStr) :
    clean_storage env d =
      ((env.mounts.filter fun md => some md.2 == d).map
        (fun md => Event.umount md.1 true)) ++
      (if env.is_lvm_physical_volume d then
        [Event.deactivateVG d, Event.removePV d]
       else []) ++
      [Event.zapDisk d] := by
  unfold clean_storage
  rw [umount_foldl]
  cases h : env.is_lvm_physical_volume d <;> simp [h]
